import Mathlib

/-!
Shallow embedding of `src/sw/kv260_fanctrl.py` (the `AxiPwmCtrl` userspace
PWM driver for the KV260 fan) and verification of its specification claims.

Modelling decisions:
* Python integers are unbounded, so register values are `ℤ`; the register
  window (the PYNQ MMIO port) is a mock `ℕ → ℤ` map recording every port
  `read`/`write` in an event list, as §9 of the design prescribes.
* `duty_cycle_percent` is a real number per the spec; we embed it as `ℚ`
  (exact arithmetic); Python `int()` truncates toward zero (`pyInt`).
* Python bitwise `|`, `&`, `~` on unbounded ints are `Int.lor`, `Int.land`,
  `Int.lnot` (two's-complement semantics, matching Python exactly).
* `print` calls become `LogLine` entries in a log list; the `debug` flag
  gates the read/write trace lines exactly as in the source.
* Each `mut_reg_bits` call additionally records its `(offset, set, unset)`
  arguments in a ghost `rmws` list, instrumenting the call structure.
-/

/-! ### Address offsets (module-level constants of the source) -/

/-- Control and Status Register 0. -/
def TCSR0_OF : ℕ := 0x0
/-- Load Register 0. -/
def TLR0_OF : ℕ := 0x4
/-- Timer and Counter Register 0. -/
def TCR0_OF : ℕ := 0x8
/-- Control and Status Register 1. -/
def TCSR1_OF : ℕ := 0x10
/-- Load Register 1. -/
def TLR1_OF : ℕ := 0x14
/-- Timer and Counter Register 1. -/
def TCR1 : ℕ := 0x18

/-- `_bit(position)` = `1 << position`. -/
def _bit (position : ℕ) : ℤ := ((1 <<< position : ℕ) : ℤ)

/-- `_set(value, mask)` = `value | mask`. -/
def _set (value mask : ℤ) : ℤ := value.lor mask

/-- `_unset(value, mask)` = `value & (~mask)`. -/
def _unset (value mask : ℤ) : ℤ := value.land mask.lnot

/-! ### TCSR bit fields -/

/-- Enable cascade mode. Does not apply to TCSR1. -/
def TCSR_CASC : ℤ := _bit 11
/-- Enable all timers. -/
def TCSR_ENALL : ℤ := _bit 10
/-- Enable PWM. -/
def TCSR_PWMA : ℤ := _bit 9
/-- Interrupt indicator bit. -/
def TCSR_TINT : ℤ := _bit 8
/-- General enable. -/
def TCSR_ENT : ℤ := _bit 7
/-- Interrupt enable. -/
def TCSR_ENIT : ℤ := _bit 6
/-- Load. -/
def TCSR_LOAD : ℤ := _bit 5
/-- Auto reload and hold. -/
def TCSR_ARHT : ℤ := _bit 4
/-- Enable external capture trigger. -/
def TCSR_CAPT : ℤ := _bit 3
/-- Enable external generate signal. -/
def TCSR_GENT : ℤ := _bit 2
/-- Up or down mode. 0 for up, 1 for down. -/
def TCSR_UDT : ℤ := _bit 1
/-- Mode. 0 for generate, 1 for capture. -/
def TCSR_MDT : ℤ := _bit 0

/-! ### Mock register port, event trace and debug log -/

/-- One interaction with the underlying register port (`drv.read` /
`drv.write`), as recorded by a mock port. -/
inductive Event : Type
  | read (offset : ℕ) (value : ℤ)
  | write (offset : ℕ) (value : ℤ)
deriving DecidableEq

/-- One `print` line emitted by the driver (debug traces and the clamp
warning), abstracted from its string rendering. -/
inductive LogLine : Type
  | readingOffset (offset : ℕ)
  | writingValue (value : ℤ) (offset : ℕ)
  | stallWarning1
  | stallWarning2
deriving DecidableEq

/-- Ghost record of one `mut_reg_bits(offset, set_mask, unset_mask)` call. -/
structure Rmw : Type where
  offset : ℕ
  set_mask : ℤ
  unset_mask : ℤ
deriving DecidableEq

/-- The state threaded through the driver: the register window contents,
the port-event trace, the ghost read-modify-write trace and the print log. -/
structure PortState : Type where
  regs : ℕ → ℤ
  events : List Event
  rmws : List Rmw
  log : List LogLine

/-- A fresh mock-port state over the given register contents: no events
recorded yet. -/
def mkState (regs : ℕ → ℤ) : PortState :=
  { regs := regs, events := [], rmws := [], log := [] }

/-! ### The driver object -/

/-- The `AxiPwmCtrl` object: its `debug` flag and its per-instance period
constant `max_count` (set to `0xFF` by `__init__`). -/
structure AxiPwmCtrl : Type where
  debug : Bool
  max_count : ℕ

/-- `AxiPwmCtrl.__init__(drv, debug)`: stores the flag and fixes
`max_count = 0xFF` (count up to this value for one period). -/
def AxiPwmCtrl.init (debug : Bool) : AxiPwmCtrl :=
  { debug := debug, max_count := 0xFF }

/-- Appends a debug line to the log exactly when `debug` is enabled
(embeds `if self.debug: print(...)`). -/
def dbgLog (c : AxiPwmCtrl) (l : LogLine) (s : PortState) : PortState :=
  { s with log := s.log ++ (if c.debug then [l] else []) }

/-- `AxiPwmCtrl._read(offset)`: optional debug trace, then `drv.read`. -/
def AxiPwmCtrl._read (c : AxiPwmCtrl) (offset : ℕ) (s : PortState) :
    ℤ × PortState :=
  let s := dbgLog c (LogLine.readingOffset offset) s
  (s.regs offset, { s with events := s.events ++ [Event.read offset (s.regs offset)] })

/-- `AxiPwmCtrl._write(offset, value)`: optional debug trace, then
`drv.write`, which the mock port records and applies to the window. -/
def AxiPwmCtrl._write (c : AxiPwmCtrl) (offset : ℕ) (value : ℤ) (s : PortState) :
    PortState :=
  let s := dbgLog c (LogLine.writingValue value offset) s
  { s with
    regs := fun o => if o = offset then value else s.regs o,
    events := s.events ++ [Event.write offset value] }

/-- `AxiPwmCtrl.mut_reg_bits(offset, set_mask, unset_mask)`: read the
register, OR in `set_mask`, AND with the complement of `unset_mask`,
write back.  Also records the call in the ghost `rmws` trace. -/
def AxiPwmCtrl.mut_reg_bits (c : AxiPwmCtrl) (offset : ℕ)
    (set_mask unset_mask : ℤ) (s : PortState) : PortState :=
  let s := { s with rmws := s.rmws ++ [⟨offset, set_mask, unset_mask⟩] }
  let p := c._read offset s
  let reg := _set p.1 set_mask
  let reg := _unset reg unset_mask
  c._write offset reg p.2

/-- `AxiPwmCtrl.stop()`: clear `TCSR_ENT` on both channels. -/
def AxiPwmCtrl.stop (c : AxiPwmCtrl) (s : PortState) : PortState :=
  let s := c.mut_reg_bits TCSR0_OF 0 TCSR_ENT s
  c.mut_reg_bits TCSR1_OF 0 TCSR_ENT s

/-- `AxiPwmCtrl.reset_counts()`: pulse `TCSR_LOAD` on each channel. -/
def AxiPwmCtrl.reset_counts (c : AxiPwmCtrl) (s : PortState) : PortState :=
  let s := c.mut_reg_bits TCSR0_OF TCSR_LOAD 0 s
  let s := c.mut_reg_bits TCSR0_OF 0 TCSR_LOAD s
  let s := c.mut_reg_bits TCSR1_OF TCSR_LOAD 0 s
  c.mut_reg_bits TCSR1_OF 0 TCSR_LOAD s

/-- `AxiPwmCtrl.start()`: set PWM/generate mode bits on both channels,
reset the counts, then set the enable-all bit on channel 0. -/
def AxiPwmCtrl.start (c : AxiPwmCtrl) (s : PortState) : PortState :=
  let s := c.mut_reg_bits TCSR0_OF (_set TCSR_PWMA TCSR_GENT) 0 s
  let s := c.mut_reg_bits TCSR1_OF (_set TCSR_PWMA TCSR_GENT) 0 s
  let s := c.reset_counts s
  c.mut_reg_bits TCSR0_OF TCSR_ENALL 0 s

/-- Python `int()` on an exact rational: truncation toward zero. -/
def pyInt (q : ℚ) : ℤ := if q < 0 then -⌊-q⌋ else ⌊q⌋

/-- `AxiPwmCtrl.configure(duty_cycle_percent)`: stop, clamp (low side
only, with warning), invert, program mode bits, write Load registers,
clear capture bits.  The in-place Python reassignments of
`duty_cycle_percent` become the two `if`-selected values below. -/
def AxiPwmCtrl.configure (c : AxiPwmCtrl) (duty_cycle_percent : ℚ)
    (s : PortState) : PortState :=
  let s := c.stop s
  let s := if duty_cycle_percent < 0.6 then
      { s with log := s.log ++ [LogLine.stallWarning1, LogLine.stallWarning2] }
    else s
  let duty_cycle_percent :=
    if duty_cycle_percent < 0.6 then (0.6 : ℚ) else duty_cycle_percent
  let duty_cycle_percent := 1.0 - duty_cycle_percent
  let s := c.mut_reg_bits TCSR0_OF (_set TCSR_UDT TCSR_ARHT) (_set TCSR_CASC TCSR_GENT) s
  let s := c.mut_reg_bits TCSR1_OF (_set TCSR_UDT TCSR_ARHT) (_set TCSR_CASC TCSR_GENT) s
  let s := c._write TLR0_OF (c.max_count : ℤ) s
  let s := c._write TLR1_OF (pyInt ((c.max_count : ℚ) * duty_cycle_percent)) s
  let s := c.mut_reg_bits TCSR0_OF 0 TCSR_CAPT s
  c.mut_reg_bits TCSR1_OF 0 TCSR_CAPT s

/-! ### Derived descriptions of the traces (used to state the claims) -/

/-- The duty cycle after the clamping step of `configure` (source lines
76-79): values below `0.6` are replaced by the floor `0.6`. -/
def clampedDuty (d : ℚ) : ℚ := if d < 0.6 then 0.6 else d

/-- Value written back by the `stop` read-modify-write. -/
def stopVal (r : ℤ) : ℤ := _unset (_set r 0) TCSR_ENT

/-- Value written back by `configure`'s mode read-modify-write. -/
def modeVal (r : ℤ) : ℤ :=
  _unset (_set r (_set TCSR_UDT TCSR_ARHT)) (_set TCSR_CASC TCSR_GENT)

/-- Value written back by `configure`'s capture-clearing read-modify-write. -/
def nocapVal (r : ℤ) : ℤ := _unset (_set r 0) TCSR_CAPT

/-- The compare count `configure` writes to Load register 1. -/
def cmpVal (c : AxiPwmCtrl) (d : ℚ) : ℤ :=
  pyInt ((c.max_count : ℚ) * (1.0 - clampedDuty d))

/-- Value written by the first (load-request-setting) write of a
`reset_counts` pulse. -/
def loadVal (r : ℤ) : ℤ := _unset (_set r TCSR_LOAD) 0

/-- Value written by the second (load-request-clearing) write of a
`reset_counts` pulse. -/
def unloadVal (r : ℤ) : ℤ := _unset (_set r 0) TCSR_LOAD

/-- Value written back by `start`'s mode read-modify-write. -/
def modeStartVal (r : ℤ) : ℤ := _unset (_set r (_set TCSR_PWMA TCSR_GENT)) 0

/-- Value written back by `start`'s final enable-all read-modify-write. -/
def enallVal (r : ℤ) : ℤ := _unset (_set r TCSR_ENALL) 0

/-- The port-event trace of one `stop` call, from TCSR contents `r0`, `r1`. -/
def stopTrace (r0 r1 : ℤ) : List Event :=
  [Event.read TCSR0_OF r0, Event.write TCSR0_OF (stopVal r0),
   Event.read TCSR1_OF r1, Event.write TCSR1_OF (stopVal r1)]

/-- The port-event trace of one `configure` call, from TCSR contents
`r0`, `r1`. -/
def cfgTrace (c : AxiPwmCtrl) (d : ℚ) (r0 r1 : ℤ) : List Event :=
  [Event.read TCSR0_OF r0, Event.write TCSR0_OF (stopVal r0),
   Event.read TCSR1_OF r1, Event.write TCSR1_OF (stopVal r1),
   Event.read TCSR0_OF (stopVal r0), Event.write TCSR0_OF (modeVal (stopVal r0)),
   Event.read TCSR1_OF (stopVal r1), Event.write TCSR1_OF (modeVal (stopVal r1)),
   Event.write TLR0_OF (c.max_count : ℤ),
   Event.write TLR1_OF (cmpVal c d),
   Event.read TCSR0_OF (modeVal (stopVal r0)),
   Event.write TCSR0_OF (nocapVal (modeVal (stopVal r0))),
   Event.read TCSR1_OF (modeVal (stopVal r1)),
   Event.write TCSR1_OF (nocapVal (modeVal (stopVal r1)))]

/-- The port-event trace of one `reset_counts` call, from TCSR contents
`r0`, `r1`. -/
def resetTrace (r0 r1 : ℤ) : List Event :=
  [Event.read TCSR0_OF r0, Event.write TCSR0_OF (loadVal r0),
   Event.read TCSR0_OF (loadVal r0), Event.write TCSR0_OF (unloadVal (loadVal r0)),
   Event.read TCSR1_OF r1, Event.write TCSR1_OF (loadVal r1),
   Event.read TCSR1_OF (loadVal r1), Event.write TCSR1_OF (unloadVal (loadVal r1))]

/-- The port-event trace of one `start` call, from TCSR contents `r0`, `r1`. -/
def startTrace (r0 r1 : ℤ) : List Event :=
  [Event.read TCSR0_OF r0, Event.write TCSR0_OF (modeStartVal r0),
   Event.read TCSR1_OF r1, Event.write TCSR1_OF (modeStartVal r1)]
  ++ resetTrace (modeStartVal r0) (modeStartVal r1)
  ++ [Event.read TCSR0_OF (unloadVal (loadVal (modeStartVal r0))),
      Event.write TCSR0_OF (enallVal (unloadVal (loadVal (modeStartVal r0))))]

/-- The ghost read-modify-write trace of one `configure` call. -/
def cfgRmwList : List Rmw :=
  [⟨TCSR0_OF, 0, TCSR_ENT⟩, ⟨TCSR1_OF, 0, TCSR_ENT⟩,
   ⟨TCSR0_OF, _set TCSR_UDT TCSR_ARHT, _set TCSR_CASC TCSR_GENT⟩,
   ⟨TCSR1_OF, _set TCSR_UDT TCSR_ARHT, _set TCSR_CASC TCSR_GENT⟩,
   ⟨TCSR0_OF, 0, TCSR_CAPT⟩, ⟨TCSR1_OF, 0, TCSR_CAPT⟩]

/-- The ghost read-modify-write trace of one `start` call. -/
def startRmwList : List Rmw :=
  [⟨TCSR0_OF, _set TCSR_PWMA TCSR_GENT, 0⟩, ⟨TCSR1_OF, _set TCSR_PWMA TCSR_GENT, 0⟩,
   ⟨TCSR0_OF, TCSR_LOAD, 0⟩, ⟨TCSR0_OF, 0, TCSR_LOAD⟩,
   ⟨TCSR1_OF, TCSR_LOAD, 0⟩, ⟨TCSR1_OF, 0, TCSR_LOAD⟩,
   ⟨TCSR0_OF, TCSR_ENALL, 0⟩]

/-- The register window as left by `configure` (pointwise description). -/
def cfgRegs (c : AxiPwmCtrl) (d : ℚ) (r : ℕ → ℤ) : ℕ → ℤ := fun o =>
  if o = TCSR1_OF then nocapVal (modeVal (stopVal (r TCSR1_OF)))
  else if o = TCSR0_OF then nocapVal (modeVal (stopVal (r TCSR0_OF)))
  else if o = TLR1_OF then cmpVal c d
  else if o = TLR0_OF then (c.max_count : ℤ)
  else r o

/-- Is this event a port write? -/
def Event.isWrite : Event → Bool
  | Event.write _ _ => true
  | _ => false

/-- The offset an event targets. -/
def Event.offset : Event → ℕ
  | Event.read o _ => o
  | Event.write o _ => o

/-- Is this event a write to one of the two Load registers? -/
def Event.isLoadWrite : Event → Bool
  | Event.write o _ => (o == TLR0_OF) || (o == TLR1_OF)
  | _ => false

/-- The values written to offset `o`, in order. -/
def writesTo (es : List Event) (o : ℕ) : List ℤ :=
  es.filterMap fun e => match e with
    | Event.write o' v => if o' = o then some v else none
    | _ => none

/-- The subtrace of write events. -/
def filterWrites (es : List Event) : List Event :=
  es.filter fun e => e.isWrite

/-- Union of all enable-style TCSR bits: enable-all, PWM enable, general
(channel) enable, interrupt enable, external capture enable, external
generate enable. -/
def enableBits : ℤ :=
  _set (_set (_set (_set (_set TCSR_ENALL TCSR_PWMA) TCSR_ENT) TCSR_ENIT) TCSR_CAPT) TCSR_GENT

/-! ### Projection lemmas for the register-access primitives -/

@[simp] lemma mut_reg_bits_regs (c : AxiPwmCtrl) (o : ℕ) (sm um : ℤ) (s : PortState) :
    (c.mut_reg_bits o sm um s).regs
      = fun o' => if o' = o then _unset (_set (s.regs o) sm) um else s.regs o' := rfl

@[simp] lemma mut_reg_bits_events (c : AxiPwmCtrl) (o : ℕ) (sm um : ℤ) (s : PortState) :
    (c.mut_reg_bits o sm um s).events
      = s.events ++ [Event.read o (s.regs o),
          Event.write o (_unset (_set (s.regs o) sm) um)] := by
  simp [AxiPwmCtrl.mut_reg_bits, AxiPwmCtrl._read, AxiPwmCtrl._write, dbgLog]

@[simp] lemma mut_reg_bits_rmws (c : AxiPwmCtrl) (o : ℕ) (sm um : ℤ) (s : PortState) :
    (c.mut_reg_bits o sm um s).rmws = s.rmws ++ [⟨o, sm, um⟩] := rfl

@[simp] lemma mut_reg_bits_log (c : AxiPwmCtrl) (o : ℕ) (sm um : ℤ) (s : PortState) :
    (c.mut_reg_bits o sm um s).log
      = s.log ++ (if c.debug then [LogLine.readingOffset o] else [])
              ++ (if c.debug then
                    [LogLine.writingValue (_unset (_set (s.regs o) sm) um) o]
                  else []) := by
  simp [AxiPwmCtrl.mut_reg_bits, AxiPwmCtrl._read, AxiPwmCtrl._write, dbgLog]

@[simp] lemma _write_regs (c : AxiPwmCtrl) (o : ℕ) (v : ℤ) (s : PortState) :
    (c._write o v s).regs = fun o' => if o' = o then v else s.regs o' := rfl

@[simp] lemma _write_events (c : AxiPwmCtrl) (o : ℕ) (v : ℤ) (s : PortState) :
    (c._write o v s).events = s.events ++ [Event.write o v] := rfl

@[simp] lemma _write_rmws (c : AxiPwmCtrl) (o : ℕ) (v : ℤ) (s : PortState) :
    (c._write o v s).rmws = s.rmws := rfl

@[simp] lemma _write_log (c : AxiPwmCtrl) (o : ℕ) (v : ℤ) (s : PortState) :
    (c._write o v s).log
      = s.log ++ (if c.debug then [LogLine.writingValue v o] else []) := rfl

/-! ### Trace characterization lemmas -/

lemma stop_events (c : AxiPwmCtrl) (s : PortState) :
    (c.stop s).events
      = s.events ++ stopTrace (s.regs TCSR0_OF) (s.regs TCSR1_OF) := by
  simp [AxiPwmCtrl.stop, stopTrace, stopVal, TCSR0_OF, TCSR1_OF]

lemma stop_regs (c : AxiPwmCtrl) (s : PortState) :
    (c.stop s).regs = fun o =>
      if o = TCSR1_OF then stopVal (s.regs TCSR1_OF)
      else if o = TCSR0_OF then stopVal (s.regs TCSR0_OF)
      else s.regs o := by
  funext o
  by_cases h1 : o = TCSR1_OF <;> by_cases h0 : o = TCSR0_OF <;>
    simp_all [AxiPwmCtrl.stop, stopVal, TCSR0_OF, TCSR1_OF]

lemma configure_events (c : AxiPwmCtrl) (d : ℚ) (s : PortState) :
    (c.configure d s).events
      = s.events ++ cfgTrace c d (s.regs TCSR0_OF) (s.regs TCSR1_OF) := by
  by_cases h : d < 0.6 <;>
    simp [AxiPwmCtrl.configure, AxiPwmCtrl.stop, cfgTrace, clampedDuty, h,
      stopVal, modeVal, nocapVal, cmpVal, TCSR0_OF, TCSR1_OF, TLR0_OF, TLR1_OF]

lemma configure_rmws (c : AxiPwmCtrl) (d : ℚ) (s : PortState) :
    (c.configure d s).rmws = s.rmws ++ cfgRmwList := by
  by_cases h : d < 0.6 <;>
    simp [AxiPwmCtrl.configure, AxiPwmCtrl.stop, cfgRmwList, h]

lemma configure_regs (c : AxiPwmCtrl) (d : ℚ) (s : PortState) :
    (c.configure d s).regs = cfgRegs c d s.regs := by
  funext o
  by_cases h : d < 0.6 <;>
    by_cases h1 : o = 16 <;> by_cases h0 : o = 0 <;>
      by_cases h3 : o = 20 <;> by_cases h2 : o = 4 <;>
        simp [AxiPwmCtrl.configure, AxiPwmCtrl.stop, cfgRegs, clampedDuty,
          stopVal, modeVal, nocapVal, cmpVal, TCSR0_OF, TCSR1_OF, TLR0_OF, TLR1_OF,
          h, h1, h0, h3, h2]

lemma reset_counts_events (c : AxiPwmCtrl) (s : PortState) :
    (c.reset_counts s).events
      = s.events ++ resetTrace (s.regs TCSR0_OF) (s.regs TCSR1_OF) := by
  simp [AxiPwmCtrl.reset_counts, resetTrace, loadVal, unloadVal, TCSR0_OF, TCSR1_OF]

lemma start_events (c : AxiPwmCtrl) (s : PortState) :
    (c.start s).events
      = s.events ++ startTrace (s.regs TCSR0_OF) (s.regs TCSR1_OF) := by
  simp [AxiPwmCtrl.start, AxiPwmCtrl.reset_counts, startTrace, resetTrace,
    loadVal, unloadVal, modeStartVal, enallVal, TCSR0_OF, TCSR1_OF]

lemma start_rmws (c : AxiPwmCtrl) (s : PortState) :
    (c.start s).rmws = s.rmws ++ startRmwList := by
  simp [AxiPwmCtrl.start, AxiPwmCtrl.reset_counts, startRmwList]

lemma start_regs_tcsr1 (c : AxiPwmCtrl) (s : PortState) :
    (c.start s).regs TCSR1_OF
      = unloadVal (loadVal (modeStartVal (s.regs TCSR1_OF))) := by
  simp [AxiPwmCtrl.start, AxiPwmCtrl.reset_counts, loadVal, unloadVal,
    modeStartVal, TCSR0_OF, TCSR1_OF]

/-! ### Bit-level helper lemmas -/

lemma int_natCast_testBit (m : ℕ) (k : ℕ) : ((m : ℤ)).testBit k = m.testBit k := rfl

lemma int_zero_testBit (k : ℕ) : (0 : ℤ).testBit k = false := by
  simp [Int.testBit]

/-- Two integers with the same two's-complement bits are equal. -/
lemma int_testBit_ext {a b : ℤ} (h : ∀ k, a.testBit k = b.testBit k) : a = b := by
  cases a with
  | ofNat m =>
    cases b with
    | ofNat n =>
      have : m = n := Nat.eq_of_testBit_eq (fun k => h k)
      simp [this]
    | negSucc n =>
      have h1 : Nat.testBit m (m + n + 1) = false :=
        Nat.testBit_lt_two_pow (lt_of_lt_of_le (Nat.lt_two_pow m)
          (Nat.pow_le_pow_right (by norm_num) (by omega)))
      have h2 : Nat.testBit n (m + n + 1) = false :=
        Nat.testBit_lt_two_pow (lt_of_lt_of_le (Nat.lt_two_pow n)
          (Nat.pow_le_pow_right (by norm_num) (by omega)))
      have := h (m + n + 1)
      simp [Int.testBit, h1, h2] at this
  | negSucc m =>
    cases b with
    | ofNat n =>
      have h1 : Nat.testBit m (m + n + 1) = false :=
        Nat.testBit_lt_two_pow (lt_of_lt_of_le (Nat.lt_two_pow m)
          (Nat.pow_le_pow_right (by norm_num) (by omega)))
      have h2 : Nat.testBit n (m + n + 1) = false :=
        Nat.testBit_lt_two_pow (lt_of_lt_of_le (Nat.lt_two_pow n)
          (Nat.pow_le_pow_right (by norm_num) (by omega)))
      have := h (m + n + 1)
      simp [Int.testBit, h1, h2] at this
    | negSucc n =>
      have : m = n := Nat.eq_of_testBit_eq (fun k => by
        have := h k
        simpa [Int.testBit] using this)
      simp [this]

lemma _set_testBit (v m : ℤ) (k : ℕ) :
    (_set v m).testBit k = (v.testBit k || m.testBit k) :=
  Int.testBit_lor v m k

lemma _unset_testBit (v m : ℤ) (k : ℕ) :
    (_unset v m).testBit k = (v.testBit k && !(m.testBit k)) := by
  rw [_unset, Int.testBit_land, Int.testBit_lnot]

lemma _bit_testBit (p k : ℕ) : (_bit p).testBit k = decide (p = k) := by
  rw [_bit, int_natCast_testBit, Nat.one_shiftLeft]
  exact Nat.testBit_two_pow

lemma stopVal_bit7 (r : ℤ) : (stopVal r).testBit 7 = false := by
  simp [stopVal, TCSR_ENT, _set_testBit, _unset_testBit, _bit_testBit, int_zero_testBit]

lemma stopVal_idem (r : ℤ) : stopVal (stopVal r) = stopVal r :=
  int_testBit_ext fun k => by
    simp [stopVal, _set_testBit, _unset_testBit, int_zero_testBit, Bool.and_assoc]

lemma modeVal_bit7 (r : ℤ) : (modeVal r).testBit 7 = r.testBit 7 := by
  simp [modeVal, TCSR_UDT, TCSR_ARHT, TCSR_CASC, TCSR_GENT,
    _set_testBit, _unset_testBit, _bit_testBit]

lemma nocapVal_bit7 (r : ℤ) : (nocapVal r).testBit 7 = r.testBit 7 := by
  simp [nocapVal, TCSR_CAPT, _set_testBit, _unset_testBit, _bit_testBit, int_zero_testBit]

lemma loadVal_bit5 (r : ℤ) : (loadVal r).testBit 5 = true := by
  simp [loadVal, TCSR_LOAD, _set_testBit, _unset_testBit, _bit_testBit, int_zero_testBit]

lemma unload_load (r : ℤ) : unloadVal (loadVal r) = _unset r TCSR_LOAD :=
  int_testBit_ext fun k => by
    simp only [unloadVal, loadVal, _set_testBit, _unset_testBit, int_zero_testBit,
      Bool.or_false, Bool.not_false, Bool.and_true]
    cases hL : TCSR_LOAD.testBit k <;> cases hr : r.testBit k <;> simp

lemma _unset_load_of_bit5_clear (r : ℤ) (h : r.testBit 5 = false) :
    _unset r TCSR_LOAD = r :=
  int_testBit_ext fun k => by
    rw [_unset_testBit, TCSR_LOAD, _bit_testBit]
    by_cases hk : k = 5
    · subst hk; simp [h]
    · simp [Ne.symm hk]

lemma modeStartVal_bit9 (r : ℤ) : (modeStartVal r).testBit 9 = true := by
  simp [modeStartVal, TCSR_PWMA, TCSR_GENT, _set_testBit, _unset_testBit,
    _bit_testBit, int_zero_testBit]

lemma modeStartVal_bit2 (r : ℤ) : (modeStartVal r).testBit 2 = true := by
  simp [modeStartVal, TCSR_PWMA, TCSR_GENT, _set_testBit, _unset_testBit,
    _bit_testBit, int_zero_testBit]

lemma modeStartVal_bit10 (r : ℤ) : (modeStartVal r).testBit 10 = r.testBit 10 := by
  simp [modeStartVal, TCSR_PWMA, TCSR_GENT, _set_testBit, _unset_testBit,
    _bit_testBit, int_zero_testBit]

lemma enallVal_bit10 (r : ℤ) : (enallVal r).testBit 10 = true := by
  simp [enallVal, TCSR_ENALL, _set_testBit, _unset_testBit, _bit_testBit, int_zero_testBit]

lemma unload_load_bit10 (r : ℤ) :
    (unloadVal (loadVal r)).testBit 10 = r.testBit 10 := by
  rw [unload_load, _unset_testBit, TCSR_LOAD, _bit_testBit]
  simp

/-! ### Helper lemmas about traces -/

lemma writesTo_append (es1 es2 : List Event) (o : ℕ) :
    writesTo (es1 ++ es2) o = writesTo es1 o ++ writesTo es2 o := by
  simp [writesTo]

lemma cfgTrace_writes_tlr0 (c : AxiPwmCtrl) (d : ℚ) (r0 r1 : ℤ) :
    writesTo (cfgTrace c d r0 r1) TLR0_OF = [(c.max_count : ℤ)] := by
  simp [cfgTrace, writesTo, TCSR0_OF, TCSR1_OF, TLR0_OF, TLR1_OF]

lemma cfgTrace_writes_tlr1 (c : AxiPwmCtrl) (d : ℚ) (r0 r1 : ℤ) :
    writesTo (cfgTrace c d r0 r1) TLR1_OF = [cmpVal c d] := by
  simp [cfgTrace, writesTo, TCSR0_OF, TCSR1_OF, TLR0_OF, TLR1_OF]

lemma resetTrace_writes_tcsr0 (r0 r1 : ℤ) :
    writesTo (resetTrace r0 r1) TCSR0_OF = [loadVal r0, unloadVal (loadVal r0)] := by
  simp [resetTrace, writesTo, TCSR0_OF, TCSR1_OF]

lemma resetTrace_writes_tcsr1 (r0 r1 : ℤ) :
    writesTo (resetTrace r0 r1) TCSR1_OF = [loadVal r1, unloadVal (loadVal r1)] := by
  simp [resetTrace, writesTo, TCSR0_OF, TCSR1_OF]

lemma stopTrace_filterWrites (r0 r1 : ℤ) :
    filterWrites (stopTrace r0 r1)
      = [Event.write TCSR0_OF (stopVal r0), Event.write TCSR1_OF (stopVal r1)] := by
  simp [filterWrites, stopTrace, Event.isWrite]

lemma reset_counts_regs (c : AxiPwmCtrl) (s : PortState) :
    (c.reset_counts s).regs = fun o =>
      if o = TCSR1_OF then unloadVal (loadVal (s.regs TCSR1_OF))
      else if o = TCSR0_OF then unloadVal (loadVal (s.regs TCSR0_OF))
      else s.regs o := by
  funext o
  by_cases h1 : o = 16 <;> by_cases h0 : o = 0 <;>
    simp [AxiPwmCtrl.reset_counts, loadVal, unloadVal, TCSR0_OF, TCSR1_OF, h1, h0]

lemma start_regs (c : AxiPwmCtrl) (s : PortState) :
    (c.start s).regs = fun o =>
      if o = TCSR1_OF then unloadVal (loadVal (modeStartVal (s.regs TCSR1_OF)))
      else if o = TCSR0_OF then
        enallVal (unloadVal (loadVal (modeStartVal (s.regs TCSR0_OF))))
      else s.regs o := by
  funext o
  by_cases h1 : o = 16 <;> by_cases h0 : o = 0 <;>
    simp [AxiPwmCtrl.start, AxiPwmCtrl.reset_counts, loadVal, unloadVal,
      modeStartVal, enallVal, TCSR0_OF, TCSR1_OF, h1, h0]

lemma cfgTrace_offsets (c : AxiPwmCtrl) (d : ℚ) (r0 r1 : ℤ) :
    ∀ e ∈ cfgTrace c d r0 r1,
      e.offset = TCSR0_OF ∨ e.offset = TLR0_OF ∨ e.offset = TCSR1_OF ∨ e.offset = TLR1_OF := by
  intro e he
  fin_cases he <;> simp [Event.offset, TCSR0_OF, TLR0_OF, TCSR1_OF, TLR1_OF]

lemma stopTrace_offsets (r0 r1 : ℤ) :
    ∀ e ∈ stopTrace r0 r1,
      e.offset = TCSR0_OF ∨ e.offset = TLR0_OF ∨ e.offset = TCSR1_OF ∨ e.offset = TLR1_OF := by
  intro e he
  fin_cases he <;> simp [Event.offset, TCSR0_OF, TCSR1_OF]

lemma resetTrace_offsets (r0 r1 : ℤ) :
    ∀ e ∈ resetTrace r0 r1,
      e.offset = TCSR0_OF ∨ e.offset = TLR0_OF ∨ e.offset = TCSR1_OF ∨ e.offset = TLR1_OF := by
  intro e he
  fin_cases he <;> simp [Event.offset, TCSR0_OF, TCSR1_OF]

lemma startTrace_offsets (r0 r1 : ℤ) :
    ∀ e ∈ startTrace r0 r1,
      e.offset = TCSR0_OF ∨ e.offset = TLR0_OF ∨ e.offset = TCSR1_OF ∨ e.offset = TLR1_OF := by
  intro e he
  rw [startTrace] at he
  rcases List.mem_append.mp he with h | h
  · rcases List.mem_append.mp h with h2 | h2
    · fin_cases h2 <;> simp [Event.offset, TCSR0_OF, TCSR1_OF]
    · exact resetTrace_offsets _ _ e h2
  · fin_cases h <;> simp [Event.offset, TCSR0_OF, TCSR1_OF]

lemma cmpVal_of_between (c : AxiPwmCtrl) (d : ℚ) (h1 : 0.6 ≤ d) (h2 : d ≤ 1) :
    cmpVal c d = ⌊(c.max_count : ℚ) * (1 - d)⌋ := by
  have hc : clampedDuty d = d := if_neg (not_lt.mpr h1)
  rw [cmpVal, hc, pyInt, if_neg]
  · norm_num
  · push_neg
    have : (0 : ℚ) ≤ 1.0 - d := by norm_num; linarith
    positivity

/-! ### The claims -/

/-- C1: for every `duty_cycle_percent` strictly below 0.6, `configure`
substitutes the floor value 0.6 as the effective duty and emits the
warning notice, and `configure(d)` issues exactly the port events (hence
the register writes) and final register state of `configure(0.6)`. -/
theorem configure_clamps_to_floor (c : AxiPwmCtrl) (d : ℚ) (s : PortState)
    (h : d < 0.6) :
    LogLine.stallWarning1 ∈ (c.configure d s).log ∧
    LogLine.stallWarning2 ∈ (c.configure d s).log ∧
    (c.configure d s).events = (c.configure 0.6 s).events ∧
    (c.configure d s).regs = (c.configure 0.6 s).regs := by
  have h6 : ¬ ((0.6 : ℚ) < 0.6) := lt_irrefl _
  have hd : clampedDuty d = clampedDuty 0.6 := by
    rw [clampedDuty, clampedDuty, if_pos h, if_neg h6]
  refine ⟨?_, ?_, ?_, ?_⟩
  · simp [AxiPwmCtrl.configure, AxiPwmCtrl.stop, h]
  · simp [AxiPwmCtrl.configure, AxiPwmCtrl.stop, h]
  · rw [configure_events, configure_events]
    simp [cfgTrace, cmpVal, hd]
  · have hcmp : cmpVal c d = cmpVal c 0.6 := by rw [cmpVal, cmpVal, hd]
    rw [configure_regs, configure_regs]
    funext o
    simp only [cfgRegs, hcmp]

/-- C1 witness: `configure(0.3)` is clamped: warning emitted and the port
events equal those of `configure(0.6)`. -/
theorem configure_clamps_to_floor_witness :
    (0.3 : ℚ) < 0.6 ∧
    (((AxiPwmCtrl.init false).configure 0.3 (mkState fun _ => 0)).events
      = ((AxiPwmCtrl.init false).configure 0.6 (mkState fun _ => 0)).events) :=
  ⟨by norm_num,
   (configure_clamps_to_floor (AxiPwmCtrl.init false) 0.3 (mkState fun _ => 0)
      (by norm_num)).2.2.1⟩

/-- C2: for every duty in [0.6, 1.0], `configure` writes the per-instance
`max_count` to Load register 0 (offset 0x4) and exactly
`⌊max_count * (1 - duty)⌋` to Load register 1 (offset 0x14); in
particular `configure(0.25)` with `max_count = 255` writes 255 to Load
register 0 and 102 to Load register 1. -/
theorem configure_load_register_values (c : AxiPwmCtrl) (d : ℚ) (regs : ℕ → ℤ)
    (h1 : 0.6 ≤ d) (h2 : d ≤ 1) :
    writesTo (c.configure d (mkState regs)).events TLR0_OF = [(c.max_count : ℤ)] ∧
    writesTo (c.configure d (mkState regs)).events TLR1_OF
      = [⌊(c.max_count : ℚ) * (1 - d)⌋] ∧
    writesTo ((AxiPwmCtrl.init false).configure 0.25 (mkState fun _ => 0)).events
      TLR0_OF = [(255 : ℤ)] ∧
    writesTo ((AxiPwmCtrl.init false).configure 0.25 (mkState fun _ => 0)).events
      TLR1_OF = [(102 : ℤ)] := by
  refine ⟨?_, ?_, ?_, ?_⟩
  · rw [configure_events]
    simp [mkState, cfgTrace_writes_tlr0]
  · rw [configure_events]
    simp [mkState, cfgTrace_writes_tlr1, cmpVal_of_between c d h1 h2]
  · rw [configure_events]
    simp [mkState, cfgTrace_writes_tlr0, AxiPwmCtrl.init]
  · rw [configure_events]
    simp [mkState, cfgTrace_writes_tlr1]
    rw [cmpVal, clampedDuty, if_pos (by norm_num : (0.25 : ℚ) < 0.6), pyInt,
      if_neg (by norm_num : ¬ ((AxiPwmCtrl.init false).max_count : ℚ) * (1.0 - 0.6) < 0)]
    norm_num [AxiPwmCtrl.init]

/-- C2 witness: at duty 0.75 with a fresh window, Load register 0 receives
`max_count` and Load register 1 receives `⌊255 * 0.25⌋ = 63`. -/
theorem configure_load_register_values_witness :
    (0.6 : ℚ) ≤ 0.75 ∧ (0.75 : ℚ) ≤ 1 ∧
    writesTo ((AxiPwmCtrl.init false).configure 0.75 (mkState fun _ => 0)).events
      TLR1_OF = [⌊((AxiPwmCtrl.init false).max_count : ℚ) * (1 - 0.75)⌋] :=
  ⟨by norm_num, by norm_num,
   (configure_load_register_values (AxiPwmCtrl.init false) 0.75 (fun _ => 0)
      (by norm_num) (by norm_num)).2.1⟩

/-- C3: in every `configure` call, from every initial register state, the
trace starts with the two stop read-modify-writes — whose written values
have the channel-enable bit (bit 7, `TCSR_ENT`) clear, on both
Control/Status registers — and only the remainder of the trace contains
the Load-register writes (offsets 0x4 and 0x14), which do occur there. -/
theorem configure_stop_precedes_load_writes (c : AxiPwmCtrl) (d : ℚ) (regs : ℕ → ℤ) :
    (c.configure d (mkState regs)).events
      = stopTrace (regs TCSR0_OF) (regs TCSR1_OF)
        ++ (cfgTrace c d (regs TCSR0_OF) (regs TCSR1_OF)).drop 4 ∧
    (stopVal (regs TCSR0_OF)).testBit 7 = false ∧
    (stopVal (regs TCSR1_OF)).testBit 7 = false ∧
    (∀ e ∈ stopTrace (regs TCSR0_OF) (regs TCSR1_OF), e.isLoadWrite = false) ∧
    Event.write TLR0_OF (c.max_count : ℤ)
      ∈ (cfgTrace c d (regs TCSR0_OF) (regs TCSR1_OF)).drop 4 ∧
    Event.write TLR1_OF (cmpVal c d)
      ∈ (cfgTrace c d (regs TCSR0_OF) (regs TCSR1_OF)).drop 4 := by
  refine ⟨?_, stopVal_bit7 _, stopVal_bit7 _, ?_, ?_, ?_⟩
  · rw [configure_events]
    simp [mkState, cfgTrace, stopTrace]
  · intro e he
    fin_cases he <;> simp [Event.isLoadWrite, TCSR0_OF, TCSR1_OF, TLR0_OF, TLR1_OF]
  · simp [cfgTrace]
  · simp [cfgTrace]

/-- C4: `start` issues the two mode read-modify-writes (whose written
values have PWM-enable bit 9 and external-generate-enable bit 2 set, on
both Control/Status registers), then the `reset_counts` trace, and only
then — strictly last — the enable-all write, which targets channel 0's
register (offset 0x0); the ghost read-modify-write trace shows the only
operation whose set mask contains `TCSR_ENALL` is the last one, on
`TCSR0_OF`, and channel 1's enable-all bit (bit 10) is never changed. -/
theorem start_mode_bits_then_enall (c : AxiPwmCtrl) (regs : ℕ → ℤ) :
    (c.start (mkState regs)).events
      = [Event.read TCSR0_OF (regs TCSR0_OF),
         Event.write TCSR0_OF (modeStartVal (regs TCSR0_OF)),
         Event.read TCSR1_OF (regs TCSR1_OF),
         Event.write TCSR1_OF (modeStartVal (regs TCSR1_OF))]
        ++ resetTrace (modeStartVal (regs TCSR0_OF)) (modeStartVal (regs TCSR1_OF))
        ++ [Event.read TCSR0_OF (unloadVal (loadVal (modeStartVal (regs TCSR0_OF)))),
            Event.write TCSR0_OF
              (enallVal (unloadVal (loadVal (modeStartVal (regs TCSR0_OF)))))] ∧
    (modeStartVal (regs TCSR0_OF)).testBit 9 = true ∧
    (modeStartVal (regs TCSR0_OF)).testBit 2 = true ∧
    (modeStartVal (regs TCSR1_OF)).testBit 9 = true ∧
    (modeStartVal (regs TCSR1_OF)).testBit 2 = true ∧
    (enallVal (unloadVal (loadVal (modeStartVal (regs TCSR0_OF))))).testBit 10 = true ∧
    (c.start (mkState regs)).rmws = startRmwList ∧
    (∀ op ∈ startRmwList, op.set_mask.land TCSR_ENALL ≠ 0 → op.offset = TCSR0_OF) ∧
    (∀ op ∈ startRmwList.dropLast, op.set_mask.land TCSR_ENALL = 0) ∧
    startRmwList.getLast? = some ⟨TCSR0_OF, TCSR_ENALL, 0⟩ ∧
    ((c.start (mkState regs)).regs TCSR1_OF).testBit 10 = (regs TCSR1_OF).testBit 10 := by
  refine ⟨?_, modeStartVal_bit9 _, modeStartVal_bit2 _, modeStartVal_bit9 _,
    modeStartVal_bit2 _, enallVal_bit10 _, ?_, ?_, ?_, ?_, ?_⟩
  · rw [start_events]
    simp [mkState, startTrace]
  · rw [start_rmws]
    simp [mkState]
  · decide
  · decide
  · decide
  · rw [start_regs_tcsr1]
    simp [mkState, unload_load_bit10, modeStartVal_bit10]

/-- C5 counterexample: from an initial state whose Control/Status
registers already have the load-request bit (`TCSR_LOAD`) set,
`reset_counts` pre-reads `TCSR_LOAD`, but its second write is
`unloadVal (loadVal TCSR_LOAD)`, which differs from the pre-read value —
the original value is not restored. -/
theorem reset_counts_restore_counterexample :
    writesTo ((AxiPwmCtrl.init false).reset_counts
        (mkState fun _ => TCSR_LOAD)).events TCSR0_OF
      = [loadVal TCSR_LOAD, unloadVal (loadVal TCSR_LOAD)] ∧
    ((AxiPwmCtrl.init false).reset_counts
        (mkState fun _ => TCSR_LOAD)).events.head?
      = some (Event.read TCSR0_OF TCSR_LOAD) ∧
    unloadVal (loadVal TCSR_LOAD) ≠ TCSR_LOAD := by
  refine ⟨?_, ?_, ?_⟩
  · rw [reset_counts_events]
    simp [mkState, resetTrace_writes_tcsr0]
  · rw [reset_counts_events]
    simp [mkState, resetTrace]
  · intro hEq
    have hb := congrArg (fun z => z.testBit 5) hEq
    rw [unload_load] at hb
    simp only [_unset_testBit] at hb
    rw [TCSR_LOAD, _bit_testBit] at hb
    simp at hb

/-- C5 (amended): from every initial register state, `reset_counts`
issues exactly two writes per channel, both to that channel's
Control/Status offset and none anywhere else; the first write has the
load-request bit set, and the second write equals the pre-read value
with the load-request bit cleared — hence equals the pre-read value
exactly when the load-request bit was already clear. -/
theorem reset_counts_two_writes_per_channel (c : AxiPwmCtrl) (regs : ℕ → ℤ) :
    writesTo ((c.reset_counts (mkState regs)).events) TCSR0_OF
      = [loadVal (regs TCSR0_OF), _unset (regs TCSR0_OF) TCSR_LOAD] ∧
    writesTo ((c.reset_counts (mkState regs)).events) TCSR1_OF
      = [loadVal (regs TCSR1_OF), _unset (regs TCSR1_OF) TCSR_LOAD] ∧
    (∀ e ∈ (c.reset_counts (mkState regs)).events, e.isWrite = true →
        e.offset = TCSR0_OF ∨ e.offset = TCSR1_OF) ∧
    (loadVal (regs TCSR0_OF)).testBit 5 = true ∧
    (loadVal (regs TCSR1_OF)).testBit 5 = true ∧
    (∀ r : ℤ, r.testBit 5 = false → _unset r TCSR_LOAD = r) := by
  refine ⟨?_, ?_, ?_, loadVal_bit5 _, loadVal_bit5 _, _unset_load_of_bit5_clear⟩
  · rw [reset_counts_events]
    simp [mkState, resetTrace_writes_tcsr0, unload_load]
  · rw [reset_counts_events]
    simp [mkState, resetTrace_writes_tcsr1, unload_load]
  · intro e he _
    rw [reset_counts_events] at he
    simp only [mkState, List.nil_append] at he
    have h4 := resetTrace_offsets (regs TCSR0_OF) (regs TCSR1_OF) e he
    rcases h4 with h | h | h | h
    · exact Or.inl h
    · exfalso
      revert he
      rw [resetTrace]
      intro he
      fin_cases he <;> simp_all [Event.offset, TCSR0_OF, TCSR1_OF, TLR0_OF]
    · exact Or.inr h
    · exfalso
      revert he
      rw [resetTrace]
      intro he
      fin_cases he <;> simp_all [Event.offset, TCSR0_OF, TCSR1_OF, TLR1_OF]

/-- C6 counterexample: `configure(2)` is not clamped from above: the value
written to Load register 1 is `-255`, outside `[0, max_count]`. -/
theorem configure_no_high_clamp_counterexample :
    writesTo (((AxiPwmCtrl.init false).configure 2 (mkState fun _ => 0)).events)
      TLR1_OF = [(-255 : ℤ)] ∧
    ¬ ((0 : ℤ) ≤ -255) := by
  constructor
  · rw [configure_events]
    simp only [mkState, List.nil_append, cfgTrace_writes_tlr1]
    rw [cmpVal, clampedDuty, if_neg (by norm_num : ¬ ((2 : ℚ) < 0.6)), pyInt,
      if_pos (by norm_num [AxiPwmCtrl.init] :
        ((AxiPwmCtrl.init false).max_count : ℚ) * (1.0 - 2) < 0)]
    norm_num [AxiPwmCtrl.init]
  · norm_num

/-- C6 (amended): `configure` has no precondition on `duty_cycle_percent`
and never rejects an input, but only the low side is clamped: for every
input at most 1.0 (including negative inputs), the clamped duty lies in
[0.6, 1.0] and the value written to Load register 1 lies in
[0, max_count].  Inputs above 1.0 are passed through unclamped (see the
counterexample). -/
theorem configure_clamps_low_side_only (c : AxiPwmCtrl) (d : ℚ) (regs : ℕ → ℤ)
    (h : d ≤ 1) :
    0.6 ≤ clampedDuty d ∧ clampedDuty d ≤ 1 ∧
    writesTo ((c.configure d (mkState regs)).events) TLR1_OF = [cmpVal c d] ∧
    0 ≤ cmpVal c d ∧ cmpVal c d ≤ (c.max_count : ℤ) := by
  have hcl : 0.6 ≤ clampedDuty d ∧ clampedDuty d ≤ 1 := by
    rw [clampedDuty]
    by_cases hlt : d < 0.6
    · rw [if_pos hlt]; norm_num
    · rw [if_neg hlt]; exact ⟨not_lt.mp hlt, h⟩
  have hq0 : (0 : ℚ) ≤ (c.max_count : ℚ) * (1.0 - clampedDuty d) :=
    mul_nonneg (Nat.cast_nonneg _) (by linarith [hcl.2])
  have hq1 : (c.max_count : ℚ) * (1.0 - clampedDuty d) ≤ (c.max_count : ℚ) := by
    nlinarith [Nat.cast_nonneg (α := ℚ) c.max_count, hcl.1]
  have hcmp : cmpVal c d = ⌊(c.max_count : ℚ) * (1.0 - clampedDuty d)⌋ := by
    rw [cmpVal, pyInt, if_neg (not_lt.mpr hq0)]
  refine ⟨hcl.1, hcl.2, ?_, ?_, ?_⟩
  · rw [configure_events]
    simp [mkState, cfgTrace_writes_tlr1]
  · rw [hcmp]
    exact Int.floor_nonneg.mpr hq0
  · rw [hcmp]
    calc ⌊(c.max_count : ℚ) * (1.0 - clampedDuty d)⌋
        ≤ ⌊(c.max_count : ℚ)⌋ := Int.floor_le_floor hq1
      _ = (c.max_count : ℤ) := Int.floor_natCast _

/-- C6 witness: at duty 1 the compare value is in range. -/
theorem configure_clamps_low_side_only_witness :
    (1 : ℚ) ≤ 1 ∧
    (0 ≤ cmpVal (AxiPwmCtrl.init false) 1 ∧
      cmpVal (AxiPwmCtrl.init false) 1 ≤ ((AxiPwmCtrl.init false).max_count : ℤ)) :=
  ⟨le_refl 1,
   ⟨(configure_clamps_low_side_only (AxiPwmCtrl.init false) 1 (fun _ => 0)
       (le_refl 1)).2.2.2.1,
    (configure_clamps_low_side_only (AxiPwmCtrl.init false) 1 (fun _ => 0)
       (le_refl 1)).2.2.2.2⟩⟩

/-- C7: after `configure`, from every initial register state, the
channel-enable bit (bit 7, `TCSR_ENT`) is clear in both Control/Status
registers, and — per the ghost read-modify-write trace — no
read-modify-write after the two initial stop operations has any
enable-style bit in its set mask, so both channels stay disabled until
`start`. -/
theorem configure_postcondition_disabled (c : AxiPwmCtrl) (d : ℚ) (regs : ℕ → ℤ) :
    ((c.configure d (mkState regs)).regs TCSR0_OF).testBit 7 = false ∧
    ((c.configure d (mkState regs)).regs TCSR1_OF).testBit 7 = false ∧
    (c.configure d (mkState regs)).rmws = cfgRmwList ∧
    (∀ op ∈ cfgRmwList.drop 2, op.set_mask.land enableBits = 0) := by
  refine ⟨?_, ?_, ?_, by decide⟩
  · rw [configure_regs]
    have hr : cfgRegs c d (mkState regs).regs TCSR0_OF
        = nocapVal (modeVal (stopVal (regs TCSR0_OF))) := by
      simp [cfgRegs, mkState, TCSR0_OF, TCSR1_OF, TLR0_OF, TLR1_OF]
    rw [hr, nocapVal_bit7, modeVal_bit7, stopVal_bit7]
  · rw [configure_regs]
    have hr : cfgRegs c d (mkState regs).regs TCSR1_OF
        = nocapVal (modeVal (stopVal (regs TCSR1_OF))) := by
      simp [cfgRegs, mkState, TCSR0_OF, TCSR1_OF, TLR0_OF, TLR1_OF]
    rw [hr, nocapVal_bit7, modeVal_bit7, stopVal_bit7]
  · rw [configure_rmws]
    simp [mkState]

/-- C8: `stop` is idempotent: calling it twice appends two stop traces
whose write subsequences are structurally identical (same offsets, same
values), and the second call leaves the register window exactly as the
first left it. -/
theorem stop_idempotent (c : AxiPwmCtrl) (s : PortState) :
    (c.stop (c.stop s)).events
      = s.events ++ stopTrace (s.regs TCSR0_OF) (s.regs TCSR1_OF)
          ++ stopTrace (stopVal (s.regs TCSR0_OF)) (stopVal (s.regs TCSR1_OF)) ∧
    filterWrites (stopTrace (stopVal (s.regs TCSR0_OF)) (stopVal (s.regs TCSR1_OF)))
      = filterWrites (stopTrace (s.regs TCSR0_OF) (s.regs TCSR1_OF)) ∧
    (c.stop (c.stop s)).regs = (c.stop s).regs := by
  refine ⟨?_, ?_, ?_⟩
  · rw [stop_events, stop_events, stop_regs]
    simp [TCSR0_OF, TCSR1_OF]
  · rw [stopTrace_filterWrites, stopTrace_filterWrites, stopVal_idem, stopVal_idem]
  · rw [stop_regs c (c.stop s), stop_regs c s]
    funext o
    by_cases h1 : o = 16 <;> by_cases h0 : o = 0 <;>
      simp [TCSR0_OF, TCSR1_OF, h1, h0, stop_regs, stopVal_idem]

/-- C9: the debug flag changes observability only: with identical initial
state, each public operation performs exactly the same port events
(reads and writes, offsets and values) and leaves exactly the same
register window whether `debug` is true or false. -/
theorem debug_flag_immaterial (m : ℕ) (d : ℚ) (s : PortState) :
    ((AxiPwmCtrl.mk true m).configure d s).events
      = ((AxiPwmCtrl.mk false m).configure d s).events ∧
    ((AxiPwmCtrl.mk true m).configure d s).regs
      = ((AxiPwmCtrl.mk false m).configure d s).regs ∧
    ((AxiPwmCtrl.mk true m).start s).events
      = ((AxiPwmCtrl.mk false m).start s).events ∧
    ((AxiPwmCtrl.mk true m).start s).regs
      = ((AxiPwmCtrl.mk false m).start s).regs ∧
    ((AxiPwmCtrl.mk true m).stop s).events
      = ((AxiPwmCtrl.mk false m).stop s).events ∧
    ((AxiPwmCtrl.mk true m).stop s).regs
      = ((AxiPwmCtrl.mk false m).stop s).regs ∧
    ((AxiPwmCtrl.mk true m).reset_counts s).events
      = ((AxiPwmCtrl.mk false m).reset_counts s).events ∧
    ((AxiPwmCtrl.mk true m).reset_counts s).regs
      = ((AxiPwmCtrl.mk false m).reset_counts s).regs := by
  refine ⟨?_, ?_, ?_, ?_, ?_, ?_, ?_, ?_⟩
  · rw [configure_events, configure_events]
    exact rfl
  · rw [configure_regs, configure_regs]
    exact rfl
  · rw [start_events, start_events]
  · rw [start_regs, start_regs]
  · rw [stop_events, stop_events]
  · rw [stop_regs, stop_regs]
  · rw [reset_counts_events, reset_counts_events]
  · rw [reset_counts_regs, reset_counts_regs]

/-- C10: no public operation ever writes the Counter registers (offsets
0x8 and 0x18): every event of every operation targets one of 0x0, 0x4,
0x10, 0x14. -/
theorem driver_never_touches_counter_registers (c : AxiPwmCtrl) (d : ℚ)
    (regs : ℕ → ℤ) (e : Event)
    (he : e ∈ (c.configure d (mkState regs)).events
        ∨ e ∈ (c.start (mkState regs)).events
        ∨ e ∈ (c.stop (mkState regs)).events
        ∨ e ∈ (c.reset_counts (mkState regs)).events)
    (_hw : e.isWrite = true) :
    (e.offset = TCSR0_OF ∨ e.offset = TLR0_OF ∨ e.offset = TCSR1_OF ∨ e.offset = TLR1_OF)
    ∧ e.offset ≠ TCR0_OF ∧ e.offset ≠ TCR1 := by
  have hoff : e.offset = TCSR0_OF ∨ e.offset = TLR0_OF
      ∨ e.offset = TCSR1_OF ∨ e.offset = TLR1_OF := by
    rcases he with h | h | h | h
    · rw [configure_events] at h
      simp only [mkState, List.nil_append] at h
      exact cfgTrace_offsets c d _ _ e h
    · rw [start_events] at h
      simp only [mkState, List.nil_append] at h
      exact startTrace_offsets _ _ e h
    · rw [stop_events] at h
      simp only [mkState, List.nil_append] at h
      exact stopTrace_offsets _ _ e h
    · rw [reset_counts_events] at h
      simp only [mkState, List.nil_append] at h
      exact resetTrace_offsets _ _ e h
  refine ⟨hoff, ?_, ?_⟩ <;> rcases hoff with h | h | h | h <;> rw [h] <;> decide

/-- C10 witness: the Load-register-0 write of `configure(1)` targets 0x4,
which is neither Counter register. -/
theorem driver_never_touches_counter_registers_witness :
    ((Event.write TLR0_OF ((AxiPwmCtrl.init false).max_count : ℤ)).offset = TCSR0_OF
      ∨ (Event.write TLR0_OF ((AxiPwmCtrl.init false).max_count : ℤ)).offset = TLR0_OF
      ∨ (Event.write TLR0_OF ((AxiPwmCtrl.init false).max_count : ℤ)).offset = TCSR1_OF
      ∨ (Event.write TLR0_OF ((AxiPwmCtrl.init false).max_count : ℤ)).offset = TLR1_OF)
    ∧ (Event.write TLR0_OF ((AxiPwmCtrl.init false).max_count : ℤ)).offset ≠ TCR0_OF
    ∧ (Event.write TLR0_OF ((AxiPwmCtrl.init false).max_count : ℤ)).offset ≠ TCR1 :=
  driver_never_touches_counter_registers (AxiPwmCtrl.init false) 1 (fun _ => 0)
    (Event.write TLR0_OF ((AxiPwmCtrl.init false).max_count : ℤ))
    (Or.inl (by rw [configure_events]; simp [mkState, cfgTrace]))
    (by rfl)
